import Mathlib

/-!
Verification of the chart-transformation logic of `src/UnifiedFinanceCSV.py`,
a single-file Streamlit dashboard over a pandas table of US state finances.

The embedding models the loaded table as a list of rows together with two
flags recording whether the optional health/education expenditure columns
are present.  Each plotting function of the source is embedded as a pure
function from the table and the selected filter values to a result record
holding the emitted messages (`st.error` / `st.warning`), the rendered
chart data (`none` when the function returns without plotting), and the
table as it stands after the call.

Sorting steps of the source (`sorted(...)`, `DataFrame.sort_values`,
`Series.sort_values`, and the ascending key order of `groupby`) are
modelled with `List.insertionSort`, a stable comparison sort.  The numeric
columns are modelled as rationals, and `sns.barplot`'s default estimator
(the arithmetic mean of the observations in each category) is modelled
exactly, since it determines the amounts shown on the bars.
-/

namespace FinanceDash

/-- One row of the Financial Record Table.  Fields correspond to the
columns `State`, `Year`, `Totals.Revenue`, `Totals.Expenditure`,
`Details.Health.Health Total Expenditure` and
`Details.Education.Education Total` of the uploaded CSV. -/
structure Row where
  state : String
  year : Int
  revenue : Rat
  expenditure : Rat
  health : Rat
  edu : Rat
  deriving DecidableEq

/-- The loaded table.  `hasHealth` / `hasEdu` record whether the two
optional expenditure columns are present (`col in df.columns`). -/
structure Table where
  rows : List Row
  hasHealth : Bool
  hasEdu : Bool
  deriving DecidableEq

/-- A user-visible message: `st.error` or `st.warning`. -/
inductive Msg where
  | error (text : String)
  | warning (text : String)
  deriving DecidableEq

/-! ### Orders used by the sorting steps -/

/-- Lexicographic code-point order on strings, the order Python's
`sorted` uses for `str` values; stated on the underlying character
lists so that it evaluates by kernel reduction. -/
def strLE (a b : String) : Prop := a.data ≤ b.data

instance : DecidableRel strLE := fun a b => inferInstanceAs (Decidable (a.data ≤ b.data))

instance : IsTotal String strLE := ⟨fun a b => le_total a.data b.data⟩

instance : IsTrans String strLE := ⟨fun _ _ _ => le_trans⟩

/-- Row comparison by `Year`, the key of `sort_values('Year')`. -/
def rowYearLE (a b : Row) : Prop := a.year ≤ b.year

instance : DecidableRel rowYearLE := fun a b => inferInstanceAs (Decidable (a.year ≤ b.year))

instance : IsTotal Row rowYearLE := ⟨fun a b => Int.le_total a.year b.year⟩

instance : IsTrans Row rowYearLE := ⟨fun _ _ _ => Int.le_trans⟩

/-- Comparison used by `sort_values(ascending=False)` on the grouped
revenue sums: `a` may precede `b` when `a`'s sum is at least `b`'s. -/
def valDescLE (a b : String × Rat) : Prop := b.2 ≤ a.2

instance : DecidableRel valDescLE := fun a b => inferInstanceAs (Decidable (b.2 ≤ a.2))

instance : IsTotal (String × Rat) valDescLE := ⟨fun a b => le_total b.2 a.2⟩

instance : IsTrans (String × Rat) valDescLE := ⟨fun _ _ _ h₁ h₂ => le_trans h₂ h₁⟩

/-- Comparison used by `sort_values(ascending=True)` on the bottom-10
series. -/
def valAscLE (a b : String × Rat) : Prop := a.2 ≤ b.2

instance : DecidableRel valAscLE := fun a b => inferInstanceAs (Decidable (a.2 ≤ b.2))

instance : IsTotal (String × Rat) valAscLE := ⟨fun a b => le_total a.2 b.2⟩

instance : IsTrans (String × Rat) valAscLE := ⟨fun _ _ _ h₁ h₂ => le_trans h₁ h₂⟩

/-! ### Melt step of `plot_revenue_vs_expenditure` -/

/-- One row of the melted (long-form) frame produced by `pd.melt` with
`id_vars=['State','Year']` and `value_vars` the two totals columns. -/
structure MeltedRow where
  state : String
  year : Int
  metric : String
  amount : Rat
  deriving DecidableEq

/-- The `Totals.Revenue` observation contributed by one table row. -/
def toRevM (r : Row) : MeltedRow :=
  { state := r.state, year := r.year, metric := "Totals.Revenue", amount := r.revenue }

/-- The `Totals.Expenditure` observation contributed by one table row. -/
def toExpM (r : Row) : MeltedRow :=
  { state := r.state, year := r.year, metric := "Totals.Expenditure", amount := r.expenditure }

/-- `pd.melt(df, id_vars=['State','Year'], value_vars=['Totals.Revenue',
'Totals.Expenditure'], ...)`: all rows tagged with the first value
variable, followed by all rows tagged with the second. -/
def meltTotals (rows : List Row) : List MeltedRow :=
  rows.map toRevM ++ rows.map toExpM

/-- Replacement of every non-overlapping occurrence of `pat` (scanned
left to right) by `repl` in a character list, the behaviour of pandas
`str.replace(pat, repl, regex=False)`.  The fuel argument makes the
recursion structural; a call with fuel at least the list length never
exhausts it. -/
def replaceAll (pat repl : List Char) : Nat → List Char → List Char
  | _, [] => []
  | 0, s => s
  | n + 1, c :: cs =>
    if pat.isPrefixOf (c :: cs) ∧ pat ≠ [] then
      repl ++ replaceAll pat repl n (List.drop pat.length (c :: cs))
    else
      c :: replaceAll pat repl n cs

/-- The column transform `.str.replace('Totals.', '', regex=False)`. -/
def stripTotals (s : String) : String :=
  ⟨replaceAll ("Totals.").data [] s.data.length s.data⟩

/-- The melted row after the `Metric` column transform. -/
def stripT (m : MeltedRow) : MeltedRow :=
  { m with metric := stripTotals m.metric }

/-- The filter mask of the melted frame:
`(df_melted['State'] == state) & (df_melted['Year'] == year)`. -/
def matchQ (state : String) (year : Int) (m : MeltedRow) : Bool :=
  m.state == state && m.year == year

/-- The same (state, year) mask on original table rows. -/
def matchRow (state : String) (year : Int) (r : Row) : Bool :=
  r.state == state && r.year == year

/-- The table rows matching the selected state and year. -/
def matchingRows (df : Table) (state : String) (year : Int) : List Row :=
  df.rows.filter (matchRow state year)

/-- The `Amount` observations carried by the melted rows of one metric
category, in order. -/
def metricAmounts (ms : List MeltedRow) (metric : String) : List Rat :=
  (ms.filter (fun m => m.metric == metric)).map MeltedRow.amount

/-- The bar height `sns.barplot` draws for one metric category: its
default estimator, the arithmetic mean of the observations. -/
def barMean (ms : List MeltedRow) (metric : String) : Rat :=
  (metricAmounts ms metric).sum / ((metricAmounts ms metric).length : Rat)

/-- The two-bar chart rendered by `plot_revenue_vs_expenditure`. -/
structure RevExpChart where
  title : String
  revenueShown : Rat
  expenditureShown : Rat
  deriving DecidableEq

/-- The observable outcome of `plot_revenue_vs_expenditure`. -/
structure RevExpResult where
  messages : List Msg
  chart : Option RevExpChart
  dfAfter : Table
  deriving DecidableEq

/-- `plot_revenue_vs_expenditure(df, state, year)` (source lines 69-92). -/
def plotRevenueVsExpenditure (df : Table) (state : String) (year : Int) : RevExpResult :=
  let dfMelted := (meltTotals df.rows).map stripT
  let filtered := dfMelted.filter (matchQ state year)
  if filtered.isEmpty then
    { messages := [Msg.warning (s!"No data available for {state} in {year}. Please select another combination.")],
      chart := none, dfAfter := df }
  else
    { messages := [],
      chart := some
        { title := s!"Revenue vs. Expenditure for {state} in {year}",
          revenueShown := barMean filtered ("Revenue"),
          expenditureShown := barMean filtered ("Expenditure") },
      dfAfter := df }

/-! ### `plot_expenditure_trends` -/

/-- The rows of the selected state. -/
def stateRows (df : Table) (state : String) : List Row :=
  df.rows.filter (fun r => r.state == state)

/-- `df[df['State'] == state].sort_values('Year')` (source line 104).
`sort_values` is called with its default `kind='quicksort'`; pandas
documents that only `mergesort`/`stable` are stable, so the source
guarantees no more than a permutation of the selected rows that is
nondecreasing in `Year` — the relative order of equal-year rows is
implementation-defined (numpy introsort).  The embedding must pick one
deterministic realization and uses a comparison sort by `Year`; every
theorem below that mentions this definition relies only on properties
shared by all sorted permutations (emptiness, membership, the returned
table), never on the order of equal-year rows. -/
def trendRows (df : Table) (state : String) : List Row :=
  List.insertionSort rowYearLE (stateRows df state)

/-- One of the two line charts: its title and its (year, amount) points
in plotting order. -/
structure TrendChart where
  title : String
  points : List (Int × Rat)
  deriving DecidableEq

/-- The observable outcome of `plot_expenditure_trends`. -/
structure TrendsResult where
  messages : List Msg
  charts : Option (TrendChart × TrendChart)
  dfAfter : Table
  deriving DecidableEq

/-- `plot_expenditure_trends(df, state)` (source lines 94-134). -/
def plotExpenditureTrends (df : Table) (state : String) : TrendsResult :=
  if !df.hasHealth || !df.hasEdu then
    { messages := [Msg.error ("Error: Required expenditure columns not found in the dataset.")],
      charts := none, dfAfter := df }
  else
    let stateData := trendRows df state
    if stateData.isEmpty then
      { messages := [Msg.warning (s!"No data available for the state: {state}.")],
        charts := none, dfAfter := df }
    else
      { messages := [],
        charts := some
          ({ title := s!"Health Expenditure Trend for {state}",
             points := stateData.map (fun r => (r.year, r.health)) },
           { title := s!"Education Expenditure Trend for {state}",
             points := stateData.map (fun r => (r.year, r.edu)) }),
        dfAfter := df }

/-! ### `plot_revenue_rankings` -/

/-- The rows of the selected year: `df[df['Year'] == year]`. -/
def rowsForYear (df : Table) (year : Int) : List Row :=
  df.rows.filter (fun r => r.year == year)

/-- The distinct `State` values of a row list in ascending order, the
group keys produced by `groupby('State')` (which sorts keys). -/
def sortedStates (rows : List Row) : List String :=
  List.insertionSort strLE (rows.map Row.state).dedup

/-- The summed `Totals.Revenue` of one state's rows. -/
def revenueSum (rows : List Row) (s : String) : Rat :=
  ((rows.filter (fun r => r.state == s)).map Row.revenue).sum

/-- `df_year.groupby('State')['Totals.Revenue'].sum()`: one (state, sum)
entry per distinct state, keys ascending. -/
def groupRevenueByState (rows : List Row) : List (String × Rat) :=
  (sortedStates rows).map (fun s => (s, revenueSum rows s))

/-- `... .sort_values(ascending=False)`: the grouped sums sorted by
descending revenue. -/
def rankingOf (rows : List Row) : List (String × Rat) :=
  List.insertionSort valDescLE (groupRevenueByState rows)

/-- The pair of horizontal bar charts rendered by `plot_revenue_rankings`. -/
structure RankChart where
  title : String
  top10 : List (String × Rat)
  bottom10 : List (String × Rat)
  deriving DecidableEq

/-- The observable outcome of `plot_revenue_rankings`. -/
structure RankResult where
  messages : List Msg
  chart : Option RankChart
  dfAfter : Table
  deriving DecidableEq

/-- `plot_revenue_rankings(df, year)` (source lines 136-166). -/
def plotRevenueRankings (df : Table) (year : Int) : RankResult :=
  let dfYear := rowsForYear df year
  if dfYear.isEmpty then
    { messages := [Msg.warning (s!"No data available for the year: {year}.")],
      chart := none, dfAfter := df }
  else
    let stateRevenues := rankingOf dfYear
    let top := stateRevenues.take 10
    let bottom := List.insertionSort valAscLE (stateRevenues.drop (stateRevenues.length - 10))
    { messages := [],
      chart := some
        { title := s!"State Revenue Rankings for {year}",
          top10 := top, bottom10 := bottom },
      dfAfter := df }

/-! ### Sidebar filter resolution (source lines 186-191) -/

/-- `sorted(df['State'].unique())`. -/
def resolvedStates (df : Table) : List String :=
  List.insertionSort strLE (df.rows.map Row.state).dedup

/-- `sorted(df['Year'].unique())`. -/
def resolvedYears (df : Table) : List Int :=
  List.insertionSort (fun a b : Int => a ≤ b) (df.rows.map Row.year).dedup

/-- `years[-1]`, the default of the year selector; `none` models the
`IndexError` raised on an empty list. -/
def defaultYear (df : Table) : Option Int :=
  (resolvedYears df).getLast?

/-! ### Concrete tables used by witnesses and counterexamples -/

/-- A small well-formed table with unique (state, year) pairs. -/
def caTable : Table :=
  { rows :=
      [ { state := "CA", year := 2020, revenue := 100, expenditure := 80, health := 7, edu := 5 },
        { state := "CA", year := 2021, revenue := 120, expenditure := 90, health := 8, edu := 6 },
        { state := "TX", year := 2020, revenue := 60, expenditure := 50, health := 3, edu := 2 } ],
    hasHealth := true, hasEdu := true }

/-- A table holding two rows for the same (state, year) pair. -/
def dupTable : Table :=
  { rows :=
      [ { state := "CA", year := 2020, revenue := 100, expenditure := 80, health := 1, edu := 1 },
        { state := "CA", year := 2020, revenue := 50, expenditure := 40, health := 2, edu := 2 } ],
    hasHealth := true, hasEdu := true }

/-- A table whose health-expenditure column is absent. -/
def noHealthTable : Table :=
  { rows := [ { state := "CA", year := 2020, revenue := 100, expenditure := 80, health := 0, edu := 5 } ],
    hasHealth := false, hasEdu := true }

/-- A successfully parsed table with zero rows (header-only CSV). -/
def emptyTable : Table :=
  { rows := [], hasHealth := true, hasEdu := true }

/-! ### Facts about the melt pipeline of `plot_revenue_vs_expenditure` -/

theorem stripTotals_revenue : stripTotals ("Totals.Revenue") = "Revenue" := by decide

theorem stripTotals_expenditure : stripTotals ("Totals.Expenditure") = "Expenditure" := by decide

/-- Filtering the melted-and-relabelled frame by the (state, year) mask
keeps exactly the two observations of each matching table row. -/
theorem filter_melt (rows : List Row) (state : String) (year : Int) :
    ((meltTotals rows).map stripT).filter (matchQ state year)
      = (rows.filter (matchRow state year)).map (stripT ∘ toRevM)
        ++ (rows.filter (matchRow state year)).map (stripT ∘ toExpM) := by
  simp only [meltTotals, List.map_append, List.map_map, List.filter_append, List.filter_map]
  congr 1

/-- The Revenue-category observations of the filtered melted frame are
the matching rows' `Totals.Revenue` values, in order. -/
theorem metricAmounts_revenue (rows : List Row) (state : String) (year : Int) :
    metricAmounts (((meltTotals rows).map stripT).filter (matchQ state year)) ("Revenue")
      = (rows.filter (matchRow state year)).map Row.revenue := by
  rw [filter_melt]
  unfold metricAmounts
  rw [List.filter_append]
  rw [List.filter_eq_self.mpr (fun m hm => by
      obtain ⟨r, -, rfl⟩ := List.mem_map.mp hm
      show (stripTotals ("Totals.Revenue") == "Revenue") = true
      decide)]
  rw [show ((rows.filter (matchRow state year)).map (stripT ∘ toExpM)).filter
        (fun m => m.metric == "Revenue") = [] from
      List.filter_eq_nil_iff.mpr (fun m hm => by
        obtain ⟨r, -, rfl⟩ := List.mem_map.mp hm
        show ¬(stripTotals ("Totals.Expenditure") == "Revenue") = true
        decide)]
  rw [List.append_nil, List.map_map]
  exact List.map_congr_left (fun r _ => rfl)

/-- The Expenditure-category observations of the filtered melted frame
are the matching rows' `Totals.Expenditure` values, in order. -/
theorem metricAmounts_expenditure (rows : List Row) (state : String) (year : Int) :
    metricAmounts (((meltTotals rows).map stripT).filter (matchQ state year)) ("Expenditure")
      = (rows.filter (matchRow state year)).map Row.expenditure := by
  rw [filter_melt]
  unfold metricAmounts
  rw [List.filter_append]
  rw [show ((rows.filter (matchRow state year)).map (stripT ∘ toRevM)).filter
        (fun m => m.metric == "Expenditure") = [] from
      List.filter_eq_nil_iff.mpr (fun m hm => by
        obtain ⟨r, -, rfl⟩ := List.mem_map.mp hm
        show ¬(stripTotals ("Totals.Revenue") == "Expenditure") = true
        decide)]
  rw [List.filter_eq_self.mpr (fun m hm => by
      obtain ⟨r, -, rfl⟩ := List.mem_map.mp hm
      show (stripTotals ("Totals.Expenditure") == "Expenditure") = true
      decide)]
  rw [List.nil_append, List.map_map]
  exact List.map_congr_left (fun r _ => rfl)

/-- The chart produced when the (state, year) selection matches at least
one table row: each bar carries the mean of the matching rows' values. -/
theorem revExp_chart_eq (df : Table) (state : String) (year : Int)
    (h : matchingRows df state year ≠ []) :
    (plotRevenueVsExpenditure df state year).chart = some
      { title := s!"Revenue vs. Expenditure for {state} in {year}",
        revenueShown := ((matchingRows df state year).map Row.revenue).sum
          / ((matchingRows df state year).length : Rat),
        expenditureShown := ((matchingRows df state year).map Row.expenditure).sum
          / ((matchingRows df state year).length : Rat) } := by
  have hmr : df.rows.filter (matchRow state year) = matchingRows df state year := rfl
  have hne : ¬((((meltTotals df.rows).map stripT).filter (matchQ state year)).isEmpty = true) := by
    rw [filter_melt, hmr]
    simp only [List.isEmpty_iff, List.append_eq_nil, List.map_eq_nil_iff]
    exact fun hc => h hc.1
  simp only [plotRevenueVsExpenditure]
  rw [if_neg hne]
  have hrev := metricAmounts_revenue df.rows state year
  have hexp := metricAmounts_expenditure df.rows state year
  rw [hmr] at hrev hexp
  simp only [barMean, hrev, hexp, List.length_map]

/-! ### C1 -/

/-- C1 (amended): for any (state, year) selection matching at least one
table row, the two shown amounts are the arithmetic means of the
matching rows' `Totals.Revenue` and `Totals.Expenditure` values (the
default estimator of the bar plot); in particular, for a uniquely
matching row they equal exactly that row's two values. -/
theorem revenue_vs_expenditure_shows_mean (df : Table) (state : String) (year : Int)
    (h : matchingRows df state year ≠ []) :
    ∃ c, (plotRevenueVsExpenditure df state year).chart = some c
      ∧ c.revenueShown = ((matchingRows df state year).map Row.revenue).sum
          / ((matchingRows df state year).length : Rat)
      ∧ c.expenditureShown = ((matchingRows df state year).map Row.expenditure).sum
          / ((matchingRows df state year).length : Rat)
      ∧ (∀ r, matchingRows df state year = [r] →
          c.revenueShown = r.revenue ∧ c.expenditureShown = r.expenditure) := by
  refine ⟨_, revExp_chart_eq df state year h, rfl, rfl, ?_⟩
  intro r hr
  constructor
  · show ((matchingRows df state year).map Row.revenue).sum
      / ((matchingRows df state year).length : Rat) = r.revenue
    rw [hr]
    simp
  · show ((matchingRows df state year).map Row.expenditure).sum
      / ((matchingRows df state year).length : Rat) = r.expenditure
    rw [hr]
    simp

/-- Witness for the amended C1 at a concrete table. -/
theorem revenue_vs_expenditure_shows_mean_witness :
    ∃ c, (plotRevenueVsExpenditure dupTable ("CA") 2020).chart = some c
      ∧ c.revenueShown = ((matchingRows dupTable ("CA") 2020).map Row.revenue).sum
          / ((matchingRows dupTable ("CA") 2020).length : Rat)
      ∧ c.expenditureShown = ((matchingRows dupTable ("CA") 2020).map Row.expenditure).sum
          / ((matchingRows dupTable ("CA") 2020).length : Rat)
      ∧ (∀ r, matchingRows dupTable ("CA") 2020 = [r] →
          c.revenueShown = r.revenue ∧ c.expenditureShown = r.expenditure) :=
  revenue_vs_expenditure_shows_mean dupTable ("CA") 2020 (by decide)

/-- C1 counterexample: with two table rows for (CA, 2020) holding
revenues 100 and 50 and expenditures 80 and 40, the shown amounts are
the means 75 and 60, not the sums 150 and 120 that the claim states. -/
theorem revenue_vs_expenditure_not_sum :
    ((plotRevenueVsExpenditure dupTable ("CA") 2020).chart.map RevExpChart.revenueShown = some 75)
    ∧ ((matchingRows dupTable ("CA") 2020).map Row.revenue).sum = 150
    ∧ (75 : Rat) ≠ 150
    ∧ ((plotRevenueVsExpenditure dupTable ("CA") 2020).chart.map RevExpChart.expenditureShown = some 60)
    ∧ ((matchingRows dupTable ("CA") 2020).map Row.expenditure).sum = 120
    ∧ (60 : Rat) ≠ 120 := by
  have hm : matchingRows dupTable ("CA") 2020 = dupTable.rows := by decide
  have hch := revExp_chart_eq dupTable ("CA") 2020 (by decide)
  refine ⟨?_, ?_, by norm_num, ?_, ?_, by norm_num⟩
  · rw [hch]
    simp only [Option.map_some']
    congr 1
    rw [hm]
    show ((100 : Rat) + (50 + 0)) / ((2 : Nat) : Rat) = 75
    norm_num
  · rw [hm]
    show ((100 : Rat) + (50 + 0)) = 150
    norm_num
  · rw [hch]
    simp only [Option.map_some']
    congr 1
    rw [hm]
    show ((80 : Rat) + (40 + 0)) / ((2 : Nat) : Rat) = 60
    norm_num
  · rw [hm]
    show ((80 : Rat) + (40 + 0)) = 120
    norm_num

/-! ### C6 -/

/-- C6: when the health- or education-expenditure column is absent, the
Expenditure Trends view reports one descriptive error and renders
nothing, for any selected state; the message is an error, not the
empty-result warning, and the other two views do not depend on the
presence of these columns at all. -/
theorem trends_missing_column_blocks (df : Table) (state : String)
    (h : df.hasHealth = false ∨ df.hasEdu = false) :
    (plotExpenditureTrends df state).messages
        = [Msg.error ("Error: Required expenditure columns not found in the dataset.")]
    ∧ (plotExpenditureTrends df state).charts = none
    ∧ (∀ w, (plotExpenditureTrends df state).messages ≠ [Msg.warning w])
    ∧ (∀ st yr, (plotRevenueVsExpenditure { df with hasHealth := true, hasEdu := true } st yr).messages
          = (plotRevenueVsExpenditure df st yr).messages
        ∧ (plotRevenueVsExpenditure { df with hasHealth := true, hasEdu := true } st yr).chart
          = (plotRevenueVsExpenditure df st yr).chart)
    ∧ (∀ yr, (plotRevenueRankings { df with hasHealth := true, hasEdu := true } yr).messages
          = (plotRevenueRankings df yr).messages
        ∧ (plotRevenueRankings { df with hasHealth := true, hasEdu := true } yr).chart
          = (plotRevenueRankings df yr).chart) := by
  have hmsg : (plotExpenditureTrends df state).messages
      = [Msg.error ("Error: Required expenditure columns not found in the dataset.")] := by
    rcases h with h | h <;> simp [plotExpenditureTrends, h]
  have hch : (plotExpenditureTrends df state).charts = none := by
    rcases h with h | h <;> simp [plotExpenditureTrends, h]
  refine ⟨hmsg, hch, ?_, ?_, ?_⟩
  · intro w
    rw [hmsg]
    simp
  · intro st yr
    constructor <;>
      · simp only [plotRevenueVsExpenditure]
        split <;> rfl
  · intro yr
    have hr : rowsForYear { df with hasHealth := true, hasEdu := true } yr
        = rowsForYear df yr := rfl
    constructor <;>
      · simp only [plotRevenueRankings, hr]
        split <;> rfl

/-- Witness for C6 at a table lacking the health column. -/
theorem trends_missing_column_blocks_witness :
    (plotExpenditureTrends noHealthTable ("CA")).messages
        = [Msg.error ("Error: Required expenditure columns not found in the dataset.")]
    ∧ (plotExpenditureTrends noHealthTable ("CA")).charts = none :=
  ⟨(trends_missing_column_blocks noHealthTable ("CA") (Or.inl rfl)).1,
   (trends_missing_column_blocks noHealthTable ("CA") (Or.inl rfl)).2.1⟩

/-! ### C7 -/

/-- C7: whenever the selected filters match no rows (and, for the trends
view, the required columns are present), each chart function emits
exactly one warning, renders no chart, and never reports an error. -/
theorem charts_empty_selection (df : Table) (state : String) (year : Int) :
    (matchingRows df state year = [] →
      (plotRevenueVsExpenditure df state year).messages
          = [Msg.warning (s!"No data available for {state} in {year}. Please select another combination.")]
        ∧ (plotRevenueVsExpenditure df state year).chart = none
        ∧ ∀ t, Msg.error t ∉ (plotRevenueVsExpenditure df state year).messages)
    ∧ (df.hasHealth = true → df.hasEdu = true → stateRows df state = [] →
        (plotExpenditureTrends df state).messages
            = [Msg.warning (s!"No data available for the state: {state}.")]
          ∧ (plotExpenditureTrends df state).charts = none
          ∧ ∀ t, Msg.error t ∉ (plotExpenditureTrends df state).messages)
    ∧ (rowsForYear df year = [] →
        (plotRevenueRankings df year).messages
            = [Msg.warning (s!"No data available for the year: {year}.")]
          ∧ (plotRevenueRankings df year).chart = none
          ∧ ∀ t, Msg.error t ∉ (plotRevenueRankings df year).messages) := by
  refine ⟨?_, ?_, ?_⟩
  · intro h0
    have hmr : df.rows.filter (matchRow state year) = matchingRows df state year := rfl
    have hemp : (((meltTotals df.rows).map stripT).filter (matchQ state year)).isEmpty = true := by
      rw [filter_melt, hmr, h0]
      rfl
    have hres : plotRevenueVsExpenditure df state year
        = { messages := [Msg.warning (s!"No data available for {state} in {year}. Please select another combination.")],
            chart := none, dfAfter := df } := by
      simp [plotRevenueVsExpenditure, hemp]
    rw [hres]
    exact ⟨rfl, rfl, by intro t ht; simp at ht⟩
  · intro hh he h0
    have ht : trendRows df state = [] := by
      rw [trendRows, h0]
      rfl
    have hres : plotExpenditureTrends df state
        = { messages := [Msg.warning (s!"No data available for the state: {state}.")],
            charts := none, dfAfter := df } := by
      simp [plotExpenditureTrends, hh, he, ht]
    rw [hres]
    exact ⟨rfl, rfl, by intro t ht2; simp at ht2⟩
  · intro h0
    have hres : plotRevenueRankings df year
        = { messages := [Msg.warning (s!"No data available for the year: {year}.")],
            chart := none, dfAfter := df } := by
      simp [plotRevenueRankings, h0]
    rw [hres]
    exact ⟨rfl, rfl, by intro t ht; simp at ht⟩

/-- Witness for C7: concrete empty selections for each of the three
chart functions. -/
theorem charts_empty_selection_witness :
    (plotRevenueVsExpenditure caTable ("TX") 1999).chart = none
    ∧ (plotExpenditureTrends caTable ("ZZ")).charts = none
    ∧ (plotRevenueRankings caTable 1999).chart = none :=
  ⟨((charts_empty_selection caTable ("TX") 1999).1 (by decide)).2.1,
   ((charts_empty_selection caTable ("ZZ") 1999).2.1 rfl rfl (by decide)).2.1,
   ((charts_empty_selection caTable ("TX") 1999).2.2 (by decide)).2.1⟩

/-! ### C9 -/

/-- C9: no chart function mutates the loaded table: each returns the
input table unchanged, whatever the selection; the charts are built
from derived copies only. -/
theorem charts_do_not_mutate (df : Table) (state : String) (year : Int) :
    (plotRevenueVsExpenditure df state year).dfAfter = df
    ∧ (plotExpenditureTrends df state).dfAfter = df
    ∧ (plotRevenueRankings df year).dfAfter = df := by
  refine ⟨?_, ?_, ?_⟩
  · simp only [plotRevenueVsExpenditure]
    split <;> rfl
  · simp only [plotExpenditureTrends]
    split
    · rfl
    · split <;> rfl
  · simp only [plotRevenueRankings]
    split <;> rfl

/-! ### C10 -/

/-- The resolved year list is empty exactly when the table has no rows. -/
theorem resolvedYears_eq_nil_iff (df : Table) : resolvedYears df = [] ↔ df.rows = [] := by
  constructor
  · intro h0
    have hp : (resolvedYears df).Perm (df.rows.map Row.year).dedup :=
      List.perm_insertionSort (fun a b : Int => a ≤ b) ((df.rows.map Row.year).dedup)
    rw [h0] at hp
    have hd : (df.rows.map Row.year).dedup = [] := hp.symm.eq_nil
    rw [List.dedup_eq_nil] at hd
    exact List.map_eq_nil_iff.mp hd
  · intro h0
    show List.insertionSort (fun a b : Int => a ≤ b) ((df.rows.map Row.year).dedup) = []
    rw [h0]
    rfl

/-- C10: the default-year selection (`years[-1]`) is defined exactly for
tables with at least one row: on a zero-row table it fails (no value),
and on a non-empty table it produces a value. -/
theorem default_year_requires_rows (df : Table) :
    (defaultYear df = none ↔ df.rows = [])
    ∧ (df.rows ≠ [] → ∃ y, defaultYear df = some y) := by
  constructor
  · simp only [defaultYear, List.getLast?_eq_none_iff]
    exact resolvedYears_eq_nil_iff df
  · intro h0
    have hne : resolvedYears df ≠ [] := fun hc => h0 ((resolvedYears_eq_nil_iff df).mp hc)
    exact ⟨(resolvedYears df).getLast hne, List.getLast?_eq_getLast _ hne⟩

/-- Witness for C10: the default year is undefined on the zero-row table
and defined on a non-empty one. -/
theorem default_year_requires_rows_witness :
    defaultYear emptyTable = none ∧ ∃ y, defaultYear caTable = some y :=
  ⟨(default_year_requires_rows emptyTable).1.mpr rfl,
   (default_year_requires_rows caTable).2 (by decide)⟩

/-! ### C5 -/

/-- Every member of a list that is pairwise nondecreasing is at most its
last element. -/
theorem le_getLast_of_pairwise : ∀ (l : List Int), l.Pairwise (fun a b : Int => a ≤ b) →
    ∀ z ∈ l, ∀ (hne : l ≠ []), z ≤ l.getLast hne
  | [], _, z, hz, _ => absurd hz (List.not_mem_nil z)
  | [a], _, z, hz, hne => by
    simp only [List.mem_singleton] at hz
    subst hz
    exact le_rfl
  | a :: b :: t, hl, z, hz, hne => by
    rw [List.getLast_cons (List.cons_ne_nil b t)]
    rcases List.mem_cons.mp hz with rfl | hz2
    · exact List.rel_of_pairwise_cons hl (List.getLast_mem (List.cons_ne_nil b t))
    · exact le_getLast_of_pairwise (b :: t) hl.of_cons z hz2 (List.cons_ne_nil b t)

/-- C5: for every table with at least one row, the default year
selection is a member of the resolved year set and is its maximum. -/
theorem default_year_is_latest (df : Table) (h : df.rows ≠ []) :
    ∃ y, defaultYear df = some y ∧ y ∈ resolvedYears df ∧ ∀ z ∈ resolvedYears df, z ≤ y := by
  have hne : resolvedYears df ≠ [] := fun hc => h ((resolvedYears_eq_nil_iff df).mp hc)
  refine ⟨(resolvedYears df).getLast hne, List.getLast?_eq_getLast _ hne,
    List.getLast_mem hne, ?_⟩
  intro z hz
  have hsorted : (resolvedYears df).Pairwise (fun a b : Int => a ≤ b) :=
    List.sorted_insertionSort (fun a b : Int => a ≤ b) ((df.rows.map Row.year).dedup)
  exact le_getLast_of_pairwise _ hsorted z hz hne

/-- Witness for C5 at a concrete table. -/
theorem default_year_is_latest_witness :
    ∃ y, defaultYear caTable = some y ∧ y ∈ resolvedYears caTable
      ∧ ∀ z ∈ resolvedYears caTable, z ≤ y :=
  default_year_is_latest caTable (by decide)

/-! ### C4 -/

/-- C4: the resolved state and year selector sets hold exactly the
distinct values of the State and Year columns, without duplicates and
sorted ascending. -/
theorem resolved_filters_spec (df : Table) :
    (resolvedStates df).Nodup
    ∧ (resolvedStates df).Pairwise strLE
    ∧ (∀ s, s ∈ resolvedStates df ↔ s ∈ df.rows.map Row.state)
    ∧ (resolvedYears df).Nodup
    ∧ (resolvedYears df).Pairwise (fun a b : Int => a ≤ b)
    ∧ (∀ y, y ∈ resolvedYears df ↔ y ∈ df.rows.map Row.year) := by
  refine ⟨?_, List.sorted_insertionSort strLE _, ?_, ?_,
    List.sorted_insertionSort (fun a b : Int => a ≤ b) _, ?_⟩
  · exact ((List.perm_insertionSort strLE ((df.rows.map Row.state).dedup)).symm).nodup
      (List.nodup_dedup _)
  · intro s
    simp [resolvedStates, List.mem_insertionSort, List.mem_dedup]
  · exact ((List.perm_insertionSort (fun a b : Int => a ≤ b)
      ((df.rows.map Row.year).dedup)).symm).nodup (List.nodup_dedup _)
  · intro y
    simp [resolvedYears, List.mem_insertionSort, List.mem_dedup]

/-! ### Facts about the ranking pipeline -/

theorem ranking_length (rows : List Row) :
    (rankingOf rows).length = (rows.map Row.state).dedup.length := by
  simp [rankingOf, groupRevenueByState, sortedStates, List.length_insertionSort]

theorem ranking_keys_perm (rows : List Row) :
    ((rankingOf rows).map Prod.fst).Perm (rows.map Row.state).dedup := by
  have h1 : (rankingOf rows).Perm (groupRevenueByState rows) :=
    List.perm_insertionSort valDescLE (groupRevenueByState rows)
  have h2 := h1.map Prod.fst
  have h3 : (groupRevenueByState rows).map Prod.fst = sortedStates rows := by
    unfold groupRevenueByState
    rw [List.map_map]
    exact (List.map_congr_left (fun s _ => rfl)).trans (List.map_id _)
  rw [h3] at h2
  exact h2.trans (List.perm_insertionSort strLE ((rows.map Row.state).dedup))

theorem ranking_keys_nodup (rows : List Row) : ((rankingOf rows).map Prod.fst).Nodup :=
  (ranking_keys_perm rows).symm.nodup (List.nodup_dedup _)

/-- The chart produced by the rankings view on a year with data. -/
theorem ranking_chart_eq (df : Table) (year : Int) (h : rowsForYear df year ≠ []) :
    (plotRevenueRankings df year).chart = some
      { title := s!"State Revenue Rankings for {year}",
        top10 := (rankingOf (rowsForYear df year)).take 10,
        bottom10 := List.insertionSort valAscLE
          ((rankingOf (rowsForYear df year)).drop
            ((rankingOf (rowsForYear df year)).length - 10)) } := by
  have hemp : ¬((rowsForYear df year).isEmpty = true) := by
    simpa [List.isEmpty_iff] using h
  simp only [plotRevenueRankings]
  rw [if_neg hemp]

/-- A pair belongs to the ranking exactly when its key is a state of the
filtered rows and its value is that state's summed revenue. -/
theorem ranking_mem_iff (rows : List Row) (p : String × Rat) :
    p ∈ rankingOf rows ↔ (p.1 ∈ rows.map Row.state ∧ p.2 = revenueSum rows p.1) := by
  constructor
  · intro hp
    have hp2 : p ∈ groupRevenueByState rows := (List.mem_insertionSort valDescLE).mp hp
    obtain ⟨s, hs, heq⟩ := List.mem_map.mp hp2
    subst heq
    exact ⟨List.mem_dedup.mp ((List.mem_insertionSort strLE).mp hs), rfl⟩
  · rintro ⟨h1, h2⟩
    apply (List.mem_insertionSort valDescLE).mpr
    apply List.mem_map.mpr
    refine ⟨p.1, (List.mem_insertionSort strLE).mpr (List.mem_dedup.mpr h1), ?_⟩
    rw [← h2]

/-- The top-10 segment and the bottom-10 segment carry disjoint state
keys as soon as the ranking holds at least 20 entries. -/
theorem ranking_take_drop_disjoint (rows : List Row)
    (hn : 20 ≤ (rankingOf rows).length) :
    ∀ p ∈ (rankingOf rows).take 10,
      ∀ q ∈ (rankingOf rows).drop ((rankingOf rows).length - 10), p.1 ≠ q.1 := by
  intro p hp q hq heq
  have hnd : ((rankingOf rows).map Prod.fst).Nodup := ranking_keys_nodup rows
  have hsplit : (rankingOf rows).take ((rankingOf rows).length - 10)
      ++ (rankingOf rows).drop ((rankingOf rows).length - 10) = rankingOf rows :=
    List.take_append_drop _ _
  have hnd2 : (((rankingOf rows).take ((rankingOf rows).length - 10)).map Prod.fst
      ++ ((rankingOf rows).drop ((rankingOf rows).length - 10)).map Prod.fst).Nodup := by
    rw [← List.map_append, hsplit]
    exact hnd
  have hdisj := (List.nodup_append.mp hnd2).2.2
  have hp2 : p ∈ (rankingOf rows).take ((rankingOf rows).length - 10) := by
    have h10 : (10 : Nat) ⊓ ((rankingOf rows).length - 10) = 10 :=
      min_eq_left (by omega)
    have htt : (rankingOf rows).take 10
        = ((rankingOf rows).take ((rankingOf rows).length - 10)).take 10 := by
      rw [List.take_take, h10]
    rw [htt] at hp
    exact (List.take_sublist 10 _).subset hp
  exact hdisj (List.mem_map_of_mem Prod.fst hp2)
    (by rw [heq]; exact List.mem_map_of_mem Prod.fst hq)

/-! ### C2 -/

/-- C2: on a year with data, the rankings view groups the year's rows by
state, sums revenue per state, sorts descending; the top-10 panel is
the first ten entries in that order and the bottom-10 panel is the last
ten entries re-sorted ascending. -/
theorem rankings_transform (df : Table) (year : Int) (h : rowsForYear df year ≠ []) :
    ∃ c, (plotRevenueRankings df year).chart = some c
      ∧ c.top10 = (rankingOf (rowsForYear df year)).take 10
      ∧ c.bottom10 = List.insertionSort valAscLE
          ((rankingOf (rowsForYear df year)).drop
            ((rankingOf (rowsForYear df year)).length - 10))
      ∧ (rankingOf (rowsForYear df year)).Pairwise (fun a b => b.2 ≤ a.2)
      ∧ (∀ p : String × Rat, p ∈ rankingOf (rowsForYear df year)
          ↔ (p.1 ∈ (rowsForYear df year).map Row.state
              ∧ p.2 = revenueSum (rowsForYear df year) p.1))
      ∧ c.bottom10.Pairwise (fun a b => a.2 ≤ b.2) :=
  ⟨_, ranking_chart_eq df year h, rfl, rfl,
    List.sorted_insertionSort valDescLE (groupRevenueByState (rowsForYear df year)),
    fun p => ranking_mem_iff (rowsForYear df year) p,
    List.sorted_insertionSort valAscLE _⟩

/-- Witness for C2 at a concrete table and year. -/
theorem rankings_transform_witness :
    ∃ c, (plotRevenueRankings caTable 2020).chart = some c
      ∧ c.top10 = (rankingOf (rowsForYear caTable 2020)).take 10
      ∧ c.bottom10 = List.insertionSort valAscLE
          ((rankingOf (rowsForYear caTable 2020)).drop
            ((rankingOf (rowsForYear caTable 2020)).length - 10))
      ∧ (rankingOf (rowsForYear caTable 2020)).Pairwise (fun a b => b.2 ≤ a.2)
      ∧ (∀ p : String × Rat, p ∈ rankingOf (rowsForYear caTable 2020)
          ↔ (p.1 ∈ (rowsForYear caTable 2020).map Row.state
              ∧ p.2 = revenueSum (rowsForYear caTable 2020) p.1))
      ∧ c.bottom10.Pairwise (fun a b => a.2 ≤ b.2) :=
  rankings_transform caTable 2020 (by decide)

/-! ### C8 -/

/-- C8: the top-10 list is sorted descending by summed revenue, has at
most ten entries and no more than the number of distinct states of the
year's rows; the bottom-10 list is sorted ascending; and with at least
20 distinct states the two lists share no state. -/
theorem rankings_bounds (df : Table) (year : Int) (h : rowsForYear df year ≠ []) :
    ∃ c, (plotRevenueRankings df year).chart = some c
      ∧ c.top10.Pairwise (fun a b => b.2 ≤ a.2)
      ∧ c.top10.length ≤ 10
      ∧ c.top10.length ≤ ((rowsForYear df year).map Row.state).dedup.length
      ∧ c.bottom10.Pairwise (fun a b => a.2 ≤ b.2)
      ∧ (20 ≤ ((rowsForYear df year).map Row.state).dedup.length →
          ∀ p ∈ c.top10, ∀ q ∈ c.bottom10, p.1 ≠ q.1) := by
  refine ⟨_, ranking_chart_eq df year h, ?_, ?_, ?_,
    List.sorted_insertionSort valAscLE _, ?_⟩
  · exact List.Pairwise.sublist (List.take_sublist 10 _)
      (List.sorted_insertionSort valDescLE (groupRevenueByState (rowsForYear df year)))
  · rw [List.length_take]
    exact min_le_left _ _
  · rw [List.length_take, ← ranking_length (rowsForYear df year)]
    exact min_le_right _ _
  · intro hn p hp q hq
    have hn2 : 20 ≤ (rankingOf (rowsForYear df year)).length := by
      rw [ranking_length]
      exact hn
    have hq2 : q ∈ (rankingOf (rowsForYear df year)).drop
        ((rankingOf (rowsForYear df year)).length - 10) :=
      (List.mem_insertionSort valAscLE).mp hq
    exact ranking_take_drop_disjoint (rowsForYear df year) hn2 p hp q hq2

/-- Witness for C8 at a concrete table and year. -/
theorem rankings_bounds_witness :
    ∃ c, (plotRevenueRankings caTable 2020).chart = some c
      ∧ c.top10.Pairwise (fun a b => b.2 ≤ a.2)
      ∧ c.top10.length ≤ 10
      ∧ c.top10.length ≤ ((rowsForYear caTable 2020).map Row.state).dedup.length
      ∧ c.bottom10.Pairwise (fun a b => a.2 ≤ b.2)
      ∧ (20 ≤ ((rowsForYear caTable 2020).map Row.state).dedup.length →
          ∀ p ∈ c.top10, ∀ q ∈ c.bottom10, p.1 ≠ q.1) :=
  rankings_bounds caTable 2020 (by decide)

end FinanceDash
